import Mathlib

/-!
Shallow embedding of the sensor daemon scheduling engine
(`dagster/_daemon/sensor.py`): the throttle gate, the mutual-exclusion
claim, the tick lifecycle and its guaranteed write on scope exit, the
run-deduplication and submission protocol, and dynamic partition
mutation.  Timestamps are rationals, opaque payloads (cursors, errors,
run ids, tags) are strings.  Python truthiness (`if cursor:` treats
`None` and the empty string alike) is modelled explicitly, because the
source relies on it.
-/

namespace SensorDaemon

/-- Python truthiness of an optional string: `None` and `""` are falsy. -/
def strTruthy : Option String → Bool
  | none => false
  | some s => decide (s ≠ "")

/-- Python truthiness of an optional number: `None` and `0` are falsy. -/
def ratTruthy : Option ℚ → Bool
  | none => false
  | some q => decide (q ≠ 0)

/-- Lookup in an association list (keys unique by construction through
`alistSet`), modelling Python `dict.get`. -/
def alistGet {β : Type} : List (String × β) → String → Option β
  | [], _ => none
  | p :: rest, k => if p.1 = k then some p.2 else alistGet rest k

/-- Update-or-insert in an association list, modelling Python `d[k] = v`. -/
def alistSet {β : Type} : List (String × β) → String → β → List (String × β)
  | [], k, v => [(k, v)]
  | p :: rest, k, v => if p.1 = k then (k, v) :: rest else p :: alistSet rest k v

/-- `merge_dicts(a, b)`: a dict holding `a`'s entries overridden by `b`'s. -/
def dictMerge (a b : List (String × String)) : List (String × String) :=
  b.foldl (fun d p => alistSet d p.1 p.2) a

/-- `dagster._core.storage.tags.RUN_KEY_TAG`. -/
def RUN_KEY_TAG : String := "dagster/run_key"

/-- `dagster._core.storage.tags.SENSOR_NAME_TAG`. -/
def SENSOR_NAME_TAG : String := "dagster/sensor_name"

/-- Tick lifecycle states (`TickStatus`). -/
inductive TickStatus where
  | STARTED
  | SKIPPED
  | SUCCESS
  | FAILURE
  deriving DecidableEq, Repr

/-- `FINISHED_TICK_STATES` from the source. -/
def FINISHED_TICK_STATES : List TickStatus :=
  [TickStatus.SKIPPED, TickStatus.SUCCESS, TickStatus.FAILURE]

/-- The persisted per-sensor bookkeeping (`SensorInstigatorData`). -/
structure SensorInstigatorData where
  last_tick_timestamp : Option ℚ
  last_run_key : Option String
  min_interval : Option ℚ
  cursor : Option String
  last_tick_start_timestamp : Option ℚ
  deriving DecidableEq, Repr

/-- The persisted instigator state; only the sensor data payload is
relevant to the engine (`InstigatorState.instigator_data`). -/
structure InstigatorState where
  instigator_data : Option SensorInstigatorData
  deriving DecidableEq, Repr

/-- The parts of `ExternalSensor` the engine reads: its name, the
selector id of its originating repository, and `min_interval_seconds`. -/
structure ExternalSensor where
  name : String
  repo_selector_id : String
  min_interval_seconds : Option ℚ
  deriving DecidableEq, Repr

/-- One evaluation attempt's record (`TickData`). -/
structure TickData where
  status : TickStatus
  timestamp : ℚ
  cursor : Option String
  run_ids : List String
  run_keys : List String
  skip_reason : Option String
  error : Option String
  origin_run_ids : List String
  deriving DecidableEq, Repr

/-- Modelled from the spec: the Tick record transition helper
`with_status` of the instigation module (declared outside src/) replaces
the status and the structured error of the tick record. -/
def TickData.with_status (t : TickData) (status : TickStatus) (error : Option String) :
    TickData :=
  { t with status := status, error := error }

/-- Modelled from the spec: `with_reason` records the skip reason. -/
def TickData.with_reason (t : TickData) (skip_reason : Option String) : TickData :=
  { t with skip_reason := skip_reason }

/-- Modelled from the spec: `with_cursor` snapshots the cursor to commit. -/
def TickData.with_cursor (t : TickData) (cursor : Option String) : TickData :=
  { t with cursor := cursor }

/-- Modelled from the spec: `with_origin_run` appends an origin run id. -/
def TickData.with_origin_run (t : TickData) (origin_run_id : String) : TickData :=
  { t with origin_run_ids := t.origin_run_ids ++ [origin_run_id] }

/-- Modelled from the spec: `with_run_info` appends the (truthy) run id
and run key to the tick's ordered, append-only `run_ids` / `run_keys`. -/
def TickData.with_run_info (t : TickData) (run_id run_key : Option String) : TickData :=
  { t with
    run_ids := if strTruthy run_id then t.run_ids ++ [run_id.getD ""] else t.run_ids,
    run_keys := if strTruthy run_key then t.run_keys ++ [run_key.getD ""] else t.run_keys }

/-- `SensorLaunchContext.update_state`: sets the status (and error)
unconditionally, then the skip reason, cursor and origin run id, each
only when truthy. -/
def update_state (t : TickData) (status : TickStatus)
    (error skip_reason cursor origin_run_id : Option String) : TickData :=
  let t1 := t.with_status status error
  let t2 := if strTruthy skip_reason then t1.with_reason skip_reason else t1
  let t3 := if strTruthy cursor then t2.with_cursor cursor else t2
  if strTruthy origin_run_id then t3.with_origin_run (origin_run_id.getD "") else t3

/-- The instigator-state update performed inside `SensorLaunchContext._write`
for a tick that reached a finished state: the cursor and `last_run_key`
advance only when the tick did not fail or when the
cursor-update-on-failure opt-in is set. -/
def writeInstigatorUpdate (sensor : ExternalSensor) (t : TickData)
    (should_update_cursor_on_failure : Bool) (state : InstigatorState) : InstigatorState :=
  let should := decide (t.status ≠ TickStatus.FAILURE) || should_update_cursor_on_failure
  let d := state.instigator_data
  let last_run_key :=
    if decide (t.run_keys ≠ []) && should then t.run_keys.getLast?
    else d.bind (fun x => x.last_run_key)
  let cursor := if should then t.cursor else d.bind (fun x => x.cursor)
  let marked := max t.timestamp (((d.bind (fun x => x.last_tick_start_timestamp)).getD 0))
  ⟨some ⟨some t.timestamp, last_run_key, sensor.min_interval_seconds, cursor, some marked⟩⟩

/-- A store interaction issued while leaving the launch-context scope. -/
inductive StoreEffect where
  | updateTick (t : TickData)
  | updateInstigatorState (s : InstigatorState)
  | purgeTicks (day_offset : ℚ) (statuses : List TickStatus)
  deriving DecidableEq, Repr

/-- Whether an effect is the persisting of the tick itself. -/
def StoreEffect.isUpdateTick : StoreEffect → Bool
  | StoreEffect.updateTick _ => true
  | _ => false

/-- `SensorLaunchContext._write`: always persist the tick; additionally
update the instigator state when the tick is in a finished state. -/
def write_effects (sensor : ExternalSensor) (t : TickData)
    (should_update_cursor_on_failure : Bool) (state : InstigatorState) : List StoreEffect :=
  StoreEffect.updateTick t ::
    (if t.status ∈ FINISHED_TICK_STATES then
      [StoreEffect.updateInstigatorState
        (writeInstigatorUpdate sensor t should_update_cursor_on_failure state)]
    else [])

/-- How the `with SensorLaunchContext(...)` block was exited. -/
inductive ExitCause where
  | normal
  | keyboardInterrupt
  | generatorExit
  | raised (error : String)
  deriving DecidableEq, Repr

/-- The retention-purge loop at the end of `SensorLaunchContext.__exit__`:
one purge per configured day offset, skipping non-positive offsets. -/
def purge_effects (purge_settings : List (ℚ × List TickStatus)) : List StoreEffect :=
  purge_settings.filterMap fun p =>
    if p.1 ≤ 0 then none else some (StoreEffect.purgeTicks p.1 p.2)

/-- `SensorLaunchContext.__exit__`: on a `KeyboardInterrupt` return at
once (no write, no purge); on any other exception first move the tick to
FAILURE with the serialized error; then write the tick (and, for a
finished tick, the instigator state) and finally run the retention
purges.  Returns the effect trace and the final tick record. -/
def tick_exit (sensor : ExternalSensor) (t : TickData)
    (should_update_cursor_on_failure : Bool) (state : InstigatorState)
    (purge_settings : List (ℚ × List TickStatus)) (cause : ExitCause) :
    List StoreEffect × TickData :=
  match cause with
  | ExitCause.keyboardInterrupt => ([], t)
  | ExitCause.raised e =>
      let t1 := update_state t TickStatus.FAILURE (some e) none none none
      (write_effects sensor t1 should_update_cursor_on_failure state
        ++ purge_effects purge_settings, t1)
  | _ =>
      (write_effects sensor t should_update_cursor_on_failure state
        ++ purge_effects purge_settings, t)

/-- `_is_under_min_interval`: throttled iff the sensor data exists, at
least one of the two timestamps is truthy, the configured interval is
truthy, and the elapsed time since the larger timestamp is below it. -/
def _is_under_min_interval (now : ℚ) (state : InstigatorState)
    (sensor : ExternalSensor) : Bool :=
  match state.instigator_data with
  | none => false
  | some d =>
      if !ratTruthy d.last_tick_start_timestamp && !ratTruthy d.last_tick_timestamp then
        false
      else if !ratTruthy sensor.min_interval_seconds then false
      else
        decide (now - max (d.last_tick_timestamp.getD 0) (d.last_tick_start_timestamp.getD 0)
          < sensor.min_interval_seconds.getD 0)

/-- `_mark_sensor_state_for_tick`: stamp `last_tick_start_timestamp = now`
into the persisted state, carrying over the other fields and refreshing
`min_interval` from the sensor definition. -/
def _mark_sensor_state_for_tick (sensor : ExternalSensor) (state : InstigatorState)
    (now : ℚ) : InstigatorState :=
  let d := state.instigator_data
  ⟨some ⟨d.bind (fun x => x.last_tick_timestamp),
         d.bind (fun x => x.last_run_key),
         sensor.min_interval_seconds,
         d.bind (fun x => x.cursor),
         some now⟩⟩

/-- The locked section at the top of `_process_tick_generator`: re-read
the persisted state, bail out when still inside the minimum interval,
otherwise stamp the start timestamp.  Returns whether the attempt
claimed the window, together with the persisted state afterwards. -/
def tryClaim (sensor : ExternalSensor) (persisted : InstigatorState) (now : ℚ) :
    Bool × InstigatorState :=
  if _is_under_min_interval now persisted sensor then (false, persisted)
  else (true, _mark_sensor_state_for_tick sensor persisted now)

/-- The outcome record of one dynamic-partitions request
(`DynamicPartitionsRequestResult`). -/
structure DynamicPartitionsRequestResult where
  partitions_def_name : String
  added_partitions : Option (List String)
  deleted_partitions : Option (List String)
  skipped_partitions : List String
  deriving DecidableEq, Repr

/-- The closed tagged union of partition mutation requests
(`AddDynamicPartitionsRequest` / `DeleteDynamicPartitionsRequest`). -/
inductive DynamicPartitionsRequest where
  | add (partitions_def_name : String) (partition_keys : List String)
  | delete (partitions_def_name : String) (partition_keys : List String)
  deriving DecidableEq, Repr

/-- The process-wide dynamic partition registry: the set of
(partitions-def name, partition key) pairs currently registered. -/
abbrev PartitionRegistry := List (String × String)

/-- Modelled from the spec: store op `hasDynamicPartition` (declared
outside src/) is membership in the shared registry. -/
def has_dynamic_partition (reg : PartitionRegistry) (d k : String) : Bool :=
  decide ((d, k) ∈ reg)

/-- Modelled from the spec: store op `addDynamicPartitions` registers the
given keys under the given partitions-def name. -/
def add_dynamic_partitions (reg : PartitionRegistry) (d : String)
    (keys : List String) : PartitionRegistry :=
  reg ++ keys.map fun k => (d, k)

/-- Modelled from the spec: store op `deleteDynamicPartition` removes one
key from the registry. -/
def delete_dynamic_partition (reg : PartitionRegistry) (d k : String) :
    PartitionRegistry :=
  reg.filter fun p => decide (p ≠ (d, k))

/-- The dynamic-partitions loop of `_evaluate_sensor`: classify the
requested keys against the registry, apply only the missing keys for an
add (respectively only the present keys for a delete), and report keys
already in the target state as skipped. -/
def process_dynamic_partitions_request (reg : PartitionRegistry)
    (req : DynamicPartitionsRequest) :
    PartitionRegistry × DynamicPartitionsRequestResult :=
  match req with
  | DynamicPartitionsRequest.add d keys =>
      let existent := keys.filter fun k => has_dynamic_partition reg d k
      let nonexistent := keys.filter fun k => !has_dynamic_partition reg d k
      let reg1 := if nonexistent ≠ [] then add_dynamic_partitions reg d nonexistent else reg
      (reg1, ⟨d, some nonexistent, none, existent⟩)
  | DynamicPartitionsRequest.delete d keys =>
      let existent := keys.filter fun k => has_dynamic_partition reg d k
      let nonexistent := keys.filter fun k => !has_dynamic_partition reg d k
      let reg1 := existent.foldl (fun r k => delete_dynamic_partition r d k) reg
      (reg1, ⟨d, none, some existent, nonexistent⟩)

/-- Run lifecycle states (`DagsterRunStatus`); `NOT_STARTED` is the state
of a created-but-not-yet-submitted run. -/
inductive DagsterRunStatus where
  | NOT_STARTED
  | QUEUED
  | STARTED
  | SUCCESS
  | FAILURE
  | CANCELED
  deriving DecidableEq, Repr

/-- The parts of a persisted `DagsterRun` the dedup protocol reads. -/
structure DagsterRun where
  run_id : String
  status : DagsterRunStatus
  tags : List (String × String)
  external_job_origin : Option String
  deriving DecidableEq, Repr

/-- A candidate unit of work (`RunRequest`): optional idempotency key and
tags (the other fields do not participate in deduplication). -/
structure RunRequest where
  run_key : Option String
  tags : List (String × String)
  deriving DecidableEq, Repr

/-- `SkippedSensorRun`: placeholder for a request skipped by the run-key
idempotence check. -/
structure SkippedSensorRun where
  run_key : Option String
  existing_run : DagsterRun
  deriving DecidableEq, Repr

/-- The run keys collected at the top of `_fetch_existing_runs`: the
truthy keys of the batch. -/
def collected_run_keys (run_requests : List RunRequest) : List String :=
  run_requests.filterMap fun r => if strTruthy r.run_key then r.run_key else none

/-- The instigator-identity filter of `_fetch_existing_runs`: a run with
no recorded origin matches on sensor name alone; a run with an origin
must also come from the same repository (selector id). -/
def sensor_identity_match (sensor : ExternalSensor) (run : DagsterRun) : Bool :=
  match run.external_job_origin with
  | none => decide (alistGet run.tags SENSOR_NAME_TAG = some sensor.name)
  | some o =>
      decide (o = sensor.repo_selector_id)
        && decide (alistGet run.tags SENSOR_NAME_TAG = some sensor.name)

/-- `_fetch_existing_runs`: bulk-fetch the runs tagged with one of the
batch's run keys, keep those matching the sensor identity, and index
them by their run-key tag (later runs overwrite earlier ones, as in the
source's dict build). -/
def _fetch_existing_runs (instance_runs : List DagsterRun) (sensor : ExternalSensor)
    (run_requests : List RunRequest) : List (String × DagsterRun) :=
  let run_keys := collected_run_keys run_requests
  if run_keys = [] then []
  else
    let runs_with_run_keys := instance_runs.filter fun run =>
      match alistGet run.tags RUN_KEY_TAG with
      | some k => decide (k ∈ run_keys)
      | none => false
    let valid_runs := runs_with_run_keys.filter (sensor_identity_match sensor)
    valid_runs.foldl
      (fun m run => alistSet m ((alistGet run.tags RUN_KEY_TAG).getD "") run) []

/-- `_create_sensor_run`: build the new run's tags by merging the job
tags, the request tags and the sensor bookkeeping tags, add the run-key
tag only for a truthy run key, and create the run in `NOT_STARTED`. -/
def _create_sensor_run (fresh_run_id : String)
    (job_tags sensor_tags : List (String × String)) (job_origin_selector_id : String)
    (run_request : RunRequest) : DagsterRun :=
  let tags0 := dictMerge (dictMerge job_tags run_request.tags) sensor_tags
  let tags :=
    if strTruthy run_request.run_key then
      alistSet tags0 RUN_KEY_TAG (run_request.run_key.getD "")
    else tags0
  ⟨fresh_run_id, DagsterRunStatus.NOT_STARTED, tags, some job_origin_selector_id⟩

/-- `_get_or_create_sensor_run`: the per-request dedup decision — create
fresh for a falsy key; otherwise look the key up among the existing
runs: reuse a `NOT_STARTED` match, skip a match in any other status,
create fresh when there is no match. -/
def _get_or_create_sensor_run (fresh_run_id : String)
    (job_tags sensor_tags : List (String × String)) (job_origin_selector_id : String)
    (run_request : RunRequest) (existing_runs_by_key : List (String × DagsterRun)) :
    DagsterRun ⊕ SkippedSensorRun :=
  if !strTruthy run_request.run_key then
    Sum.inl (_create_sensor_run fresh_run_id job_tags sensor_tags job_origin_selector_id
      run_request)
  else
    match alistGet existing_runs_by_key (run_request.run_key.getD "") with
    | some run =>
        if run.status ≠ DagsterRunStatus.NOT_STARTED then
          Sum.inr ⟨run_request.run_key, run⟩
        else Sum.inl run
    | none =>
        Sum.inl (_create_sensor_run fresh_run_id job_tags sensor_tags job_origin_selector_id
          run_request)

/-- The outcome of submitting one run request (`SubmitRunRequestResult`). -/
structure SubmitRunRequestResult where
  run_key : Option String
  error_info : Option String
  run : DagsterRun ⊕ SkippedSensorRun
  deriving DecidableEq, Repr

/-- `_submit_run_request` for one batch entry `(request, fresh run id,
outcome of the external submission call)`: a skipped request returns
before submission with no error; a created (or reused) run is submitted
and a submission failure is captured in `error_info` of this result
only. -/
def _submit_run_request (job_tags sensor_tags : List (String × String))
    (job_origin_selector_id : String) (existing_runs_by_key : List (String × DagsterRun))
    (entry : RunRequest × String × Option String) : SubmitRunRequestResult :=
  match _get_or_create_sensor_run entry.2.1 job_tags sensor_tags job_origin_selector_id
      entry.1 existing_runs_by_key with
  | Sum.inr skipped => ⟨entry.1.run_key, none, Sum.inr skipped⟩
  | Sum.inl run => ⟨entry.1.run_key, entry.2.2, Sum.inl run⟩

/-- The result loop of `_evaluate_sensor`: record run info on the tick
for every result, a skipped result contributing its key only. -/
def record_run_request_results (results : List SubmitRunRequestResult)
    (t : TickData) : TickData :=
  results.foldl
    (fun tk r =>
      match r.run with
      | Sum.inr _ => tk.with_run_info none r.run_key
      | Sum.inl run => tk.with_run_info (some run.run_id) r.run_key)
    t

/-- The submission phase of `_evaluate_sensor`: map `_submit_run_request`
over the batch, record every outcome on the tick, then finish the tick
in SUCCESS when `run_count` is non-zero and in SKIPPED otherwise, in
both cases committing the evaluation's cursor. -/
def submit_phase (job_tags sensor_tags : List (String × String))
    (job_origin_selector_id : String) (existing_runs_by_key : List (String × DagsterRun))
    (entries : List (RunRequest × String × Option String)) (t : TickData)
    (eval_cursor : Option String) : TickData :=
  let results := entries.map
    (_submit_run_request job_tags sensor_tags job_origin_selector_id existing_runs_by_key)
  let t1 := record_run_request_results results t
  if t1.run_ids.length ≠ 0 then update_state t1 TickStatus.SUCCESS none none eval_cursor none
  else update_state t1 TickStatus.SKIPPED none none eval_cursor none

/-- Whether a submit result was skipped by the dedup check. -/
def SubmitRunRequestResult.is_skipped (r : SubmitRunRequestResult) : Bool :=
  match r.run with
  | Sum.inr _ => true
  | Sum.inl _ => false

/-- Claim C3: the throttle gate is a pure function of the clock and the
persisted data: it answers true exactly when the sensor data is present,
a configured (truthy) minimum interval exists, at least one of the two
timestamps is recorded (truthy), and the time elapsed since the larger
of the two (an absent one counting as 0) is below the interval; absence
of both timestamps, or of the interval, yields false. -/
theorem is_under_min_interval_characterization (now : ℚ) (st : InstigatorState)
    (sensor : ExternalSensor) :
    _is_under_min_interval now st sensor = true ↔
      ∃ d, st.instigator_data = some d
        ∧ ratTruthy sensor.min_interval_seconds = true
        ∧ (ratTruthy d.last_tick_timestamp = true
            ∨ ratTruthy d.last_tick_start_timestamp = true)
        ∧ now - max (d.last_tick_timestamp.getD 0) (d.last_tick_start_timestamp.getD 0)
            < sensor.min_interval_seconds.getD 0 := by
  cases h : st.instigator_data with
  | none => simp [_is_under_min_interval, h]
  | some d =>
      simp only [_is_under_min_interval, h]
      by_cases h1 : ratTruthy d.last_tick_start_timestamp = true <;>
        by_cases h2 : ratTruthy d.last_tick_timestamp = true <;>
          by_cases h3 : ratTruthy sensor.min_interval_seconds = true <;>
            simp_all [decide_eq_true_eq]

/-- Claim C4: the mutual-exclusion claim checks the freshly read state
against the throttle gate, declines when still inside the window, and
otherwise stamps `last_tick_start_timestamp = now` before returning;
hence, for a configured interval `I`, of two sequential claim attempts
less than `I` apart of which the first is not throttled, exactly one
succeeds: the first claims and stamps its start time, the second is
declined and leaves the persisted state untouched. -/
theorem throttle_mutual_exclusion (sensor : ExternalSensor) (st : InstigatorState)
    (t1 t2 I : ℚ) (hI : sensor.min_interval_seconds = some I) (hIpos : 0 < I)
    (ht1 : 0 < t1) (h12 : t1 ≤ t2) (hlt : t2 < t1 + I)
    (hfree : _is_under_min_interval t1 st sensor = false) :
    (tryClaim sensor st t1).1 = true
    ∧ (tryClaim sensor st t1).2.instigator_data.bind
        (fun d => d.last_tick_start_timestamp) = some t1
    ∧ (tryClaim sensor (tryClaim sensor st t1).2 t2).1 = false
    ∧ (tryClaim sensor (tryClaim sensor st t1).2 t2).2 = (tryClaim sensor st t1).2 := by
  have hclaim : tryClaim sensor st t1 = (true, _mark_sensor_state_for_tick sensor st t1) := by
    simp [tryClaim, hfree]
  have htruthy1 : ratTruthy (some t1) = true := by
    simp [ratTruthy]
    exact ne_of_gt ht1
  have htruthyI : ratTruthy sensor.min_interval_seconds = true := by
    simp [ratTruthy, hI]
    exact ne_of_gt hIpos
  have hunder : _is_under_min_interval t2 (_mark_sensor_state_for_tick sensor st t1)
      sensor = true := by
    simp only [_is_under_min_interval, _mark_sensor_state_for_tick, htruthy1,
      Bool.not_true, Bool.and_false, Bool.false_and, Bool.and_eq_true, htruthyI,
      Bool.not_eq_true', if_false, Bool.false_eq_true]
    have hmax : t1 ≤ max ((st.instigator_data.bind
        (fun x => x.last_tick_timestamp)).getD 0) t1 := le_max_right _ _
    have : t2 - max ((st.instigator_data.bind
        (fun x => x.last_tick_timestamp)).getD 0) t1 < I := by
      have := sub_le_sub_left hmax t2
      linarith
    simp only [hI, Option.getD_some]
    simp [this]
  refine ⟨by simp [hclaim], by simp [hclaim, _mark_sensor_state_for_tick], ?_, ?_⟩
  · rw [hclaim]
    simp [tryClaim, hunder]
  · rw [hclaim]
    simp [tryClaim, hunder]

/-- Witness for claim C4: a concrete sensor with interval 60, a fresh
state, and attempts at times 100 and 130. -/
theorem throttle_mutual_exclusion_witness :
    (tryClaim ⟨"s", "repo", some 60⟩ ⟨some ⟨none, none, some 60, none, none⟩⟩ 100).1 = true
    ∧ (tryClaim ⟨"s", "repo", some 60⟩
        (tryClaim ⟨"s", "repo", some 60⟩ ⟨some ⟨none, none, some 60, none, none⟩⟩ 100).2
        130).1 = false := by
  have h := throttle_mutual_exclusion ⟨"s", "repo", some 60⟩
    ⟨some ⟨none, none, some 60, none, none⟩⟩ 100 130 60 rfl (by norm_num) (by norm_num)
    (by norm_num) (by norm_num) (by decide)
  exact ⟨h.1, h.2.2.1⟩

/-- The status written by `update_state` is the status passed in. -/
theorem update_state_status (t : TickData) (status : TickStatus)
    (error skip_reason cursor origin_run_id : Option String) :
    (update_state t status error skip_reason cursor origin_run_id).status = status := by
  simp only [update_state, TickData.with_status, TickData.with_reason, TickData.with_cursor,
    TickData.with_origin_run]
  split <;> split <;> split <;> rfl

/-- The error written by `update_state` is the error passed in. -/
theorem update_state_error (t : TickData) (status : TickStatus)
    (error skip_reason cursor origin_run_id : Option String) :
    (update_state t status error skip_reason cursor origin_run_id).error = error := by
  simp only [update_state, TickData.with_status, TickData.with_reason, TickData.with_cursor,
    TickData.with_origin_run]
  split <;> split <;> split <;> rfl

/-- `update_state` records the cursor only when it is truthy. -/
theorem update_state_cursor (t : TickData) (status : TickStatus)
    (error skip_reason cursor origin_run_id : Option String) :
    (update_state t status error skip_reason cursor origin_run_id).cursor
      = if strTruthy cursor then cursor else t.cursor := by
  simp only [update_state, TickData.with_status, TickData.with_reason, TickData.with_cursor,
    TickData.with_origin_run]
  split <;> split <;> split <;> rfl

/-- `update_state` does not touch the recorded run ids. -/
theorem update_state_run_ids (t : TickData) (status : TickStatus)
    (error skip_reason cursor origin_run_id : Option String) :
    (update_state t status error skip_reason cursor origin_run_id).run_ids = t.run_ids := by
  simp only [update_state, TickData.with_status, TickData.with_reason, TickData.with_cursor,
    TickData.with_origin_run]
  split <;> split <;> split <;> rfl

/-- `update_state` does not touch the recorded run keys. -/
theorem update_state_run_keys (t : TickData) (status : TickStatus)
    (error skip_reason cursor origin_run_id : Option String) :
    (update_state t status error skip_reason cursor origin_run_id).run_keys = t.run_keys := by
  simp only [update_state, TickData.with_status, TickData.with_reason, TickData.with_cursor,
    TickData.with_origin_run]
  split <;> split <;> split <;> rfl

/-- The retention-purge loop never writes a tick. -/
theorem purge_effects_no_tick_write (ps : List (ℚ × List TickStatus)) :
    (purge_effects ps).countP StoreEffect.isUpdateTick = 0 := by
  rw [List.countP_eq_zero]
  intro eff heff
  simp only [purge_effects, List.mem_filterMap] at heff
  obtain ⟨p, -, hp⟩ := heff
  by_cases h0 : p.1 ≤ 0
  · simp [h0] at hp
  · simp only [h0, if_false, Option.some.injEq] at hp
    rw [← hp]
    simp [StoreEffect.isUpdateTick]

/-- Claim C2: when the evaluation raises an uncaught error (modelled by
scope exit with `ExitCause.raised`) after producing zero run requests,
the scope exit persists the tick exactly once, in FAILURE state with the
serialized (non-null) error, and that write is the first effect of the
trace — before the instigator-state update and before every retention
purge. -/
theorem tick_failure_write_guaranteed (sensor : ExternalSensor) (t : TickData)
    (flag : Bool) (state : InstigatorState) (purge_settings : List (ℚ × List TickStatus))
    (e : String) (h : t.run_ids = []) :
    (tick_exit sensor t flag state purge_settings (ExitCause.raised e)).2.status
        = TickStatus.FAILURE
    ∧ (tick_exit sensor t flag state purge_settings (ExitCause.raised e)).2.error = some e
    ∧ (tick_exit sensor t flag state purge_settings (ExitCause.raised e)).2.run_ids = []
    ∧ ∃ rest, (tick_exit sensor t flag state purge_settings (ExitCause.raised e)).1
          = StoreEffect.updateTick
              (tick_exit sensor t flag state purge_settings (ExitCause.raised e)).2 :: rest
        ∧ rest.countP StoreEffect.isUpdateTick = 0 := by
  have hstat : (update_state t TickStatus.FAILURE (some e) none none none).status
      = TickStatus.FAILURE := update_state_status t _ _ _ _ _
  have herr : (update_state t TickStatus.FAILURE (some e) none none none).error
      = some e := update_state_error t _ _ _ _ _
  have hids : (update_state t TickStatus.FAILURE (some e) none none none).run_ids
      = t.run_ids := update_state_run_ids t _ _ _ _ _
  refine ⟨hstat, herr, ?_, ?_⟩
  · show (update_state t TickStatus.FAILURE (some e) none none none).run_ids = []
    rw [hids, h]
  refine ⟨StoreEffect.updateInstigatorState
      (writeInstigatorUpdate sensor
        (update_state t TickStatus.FAILURE (some e) none none none) flag state)
      :: purge_effects purge_settings, ?_, ?_⟩
  · simp only [tick_exit, write_effects, FINISHED_TICK_STATES, hstat]
    simp
  · simp [List.countP_cons, purge_effects_no_tick_write, StoreEffect.isUpdateTick]

/-- Witness for claim C2: a concrete STARTED tick with an uncaught
evaluation error. -/
theorem tick_failure_write_guaranteed_witness :
    (tick_exit ⟨"s", "repo", some 30⟩
        ⟨TickStatus.STARTED, 100, none, [], [], none, none, []⟩ false ⟨none⟩
        [(7, [TickStatus.SKIPPED])] (ExitCause.raised "boom")).2.status
        = TickStatus.FAILURE
    ∧ (tick_exit ⟨"s", "repo", some 30⟩
        ⟨TickStatus.STARTED, 100, none, [], [], none, none, []⟩ false ⟨none⟩
        [(7, [TickStatus.SKIPPED])] (ExitCause.raised "boom")).2.error = some "boom" := by
  have h := tick_failure_write_guaranteed ⟨"s", "repo", some 30⟩
    ⟨TickStatus.STARTED, 100, none, [], [], none, none, []⟩ false ⟨none⟩
    [(7, [TickStatus.SKIPPED])] "boom" rfl
  exact ⟨h.1, h.2.1⟩

/-- Claim C7 (amended): on a deliberate process interrupt the scope exit
returns immediately — the interrupt is propagated, no error is recorded
on the tick, and the in-progress tick is NOT written: no store effect at
all happens on scope exit. -/
theorem interrupt_exit_no_effects (sensor : ExternalSensor) (t : TickData)
    (flag : Bool) (state : InstigatorState)
    (purge_settings : List (ℚ × List TickStatus)) :
    tick_exit sensor t flag state purge_settings ExitCause.keyboardInterrupt = ([], t) :=
  rfl

/-- Counterexample to claim C7 as stated: for a concrete in-progress
STARTED tick interrupted by a deliberate process interrupt, the exit
trace contains no tick write — the tick is not finalized in storage. -/
theorem interrupt_tick_unwritten_counterexample :
    (tick_exit ⟨"s", "repo", some 30⟩
        ⟨TickStatus.STARTED, 100, none, [], [], none, none, []⟩ false ⟨none⟩
        [(7, [TickStatus.SKIPPED])] ExitCause.keyboardInterrupt).1.countP
      StoreEffect.isUpdateTick = 0 := by
  rfl

/-- Claim C5: on a FAILURE tick without the cursor-update-on-failure
opt-in, the instigator-state write leaves cursor and `last_run_key`
unchanged from the state read before the write; on a SUCCESS or SKIPPED
tick (and on FAILURE with the opt-in) the tick's cursor snapshot — the
cursor returned by evaluation — is committed. -/
theorem cursor_frame_on_tick_write (sensor : ExternalSensor) (t : TickData)
    (flag : Bool) (state : InstigatorState) :
    (t.status = TickStatus.FAILURE → flag = false →
      (writeInstigatorUpdate sensor t flag state).instigator_data.bind (fun d => d.cursor)
          = state.instigator_data.bind (fun d => d.cursor)
        ∧ (writeInstigatorUpdate sensor t flag state).instigator_data.bind
              (fun d => d.last_run_key)
            = state.instigator_data.bind (fun d => d.last_run_key))
    ∧ ((t.status = TickStatus.SUCCESS ∨ t.status = TickStatus.SKIPPED) →
        (writeInstigatorUpdate sensor t flag state).instigator_data.bind (fun d => d.cursor)
          = t.cursor)
    ∧ (t.status = TickStatus.FAILURE → flag = true →
        (writeInstigatorUpdate sensor t flag state).instigator_data.bind (fun d => d.cursor)
          = t.cursor) := by
  refine ⟨?_, ?_, ?_⟩
  · intro hs hf
    subst hf
    constructor <;> simp [writeInstigatorUpdate, hs]
  · intro hs
    rcases hs with hs | hs <;> simp [writeInstigatorUpdate, hs]
  · intro hs hf
    subst hf
    simp [writeInstigatorUpdate, hs]

/-- Witness for claim C5: concrete FAILURE and SKIPPED writes against a
state carrying cursor "abc" and run key "k0". -/
theorem cursor_frame_on_tick_write_witness :
    ((writeInstigatorUpdate ⟨"s", "repo", some 30⟩
        ⟨TickStatus.FAILURE, 100, some "new", [], ["k1"], none, some "err", []⟩ false
        ⟨some ⟨some 40, some "k0", some 30, some "abc", some 40⟩⟩).instigator_data.bind
          (fun d => d.cursor) = some "abc"
      ∧ (writeInstigatorUpdate ⟨"s", "repo", some 30⟩
          ⟨TickStatus.FAILURE, 100, some "new", [], ["k1"], none, some "err", []⟩ false
          ⟨some ⟨some 40, some "k0", some 30, some "abc", some 40⟩⟩).instigator_data.bind
            (fun d => d.last_run_key) = some "k0")
    ∧ (writeInstigatorUpdate ⟨"s", "repo", some 30⟩
        ⟨TickStatus.SKIPPED, 100, some "new", [], [], none, none, []⟩ false
        ⟨some ⟨some 40, some "k0", some 30, some "abc", some 40⟩⟩).instigator_data.bind
          (fun d => d.cursor) = some "new" := by
  constructor
  · exact (cursor_frame_on_tick_write ⟨"s", "repo", some 30⟩
      ⟨TickStatus.FAILURE, 100, some "new", [], ["k1"], none, some "err", []⟩ false
      ⟨some ⟨some 40, some "k0", some 30, some "abc", some 40⟩⟩).1 rfl rfl
  · exact (cursor_frame_on_tick_write ⟨"s", "repo", some 30⟩
      ⟨TickStatus.SKIPPED, 100, some "new", [], [], none, none, []⟩ false
      ⟨some ⟨some 40, some "k0", some 30, some "abc", some 40⟩⟩).2.1 (Or.inr rfl)

/-- Claim C9 (amended): an evaluation with no run requests and no
reactions moves the tick from STARTED to SKIPPED and commits the
evaluation's cursor to the persisted state — except when the evaluation
returns the empty-string cursor, which (being falsy) is never written to
the tick, so null is committed instead. -/
theorem skip_commits_cursor (sensor : ExternalSensor) (t : TickData)
    (state : InstigatorState) (eval_cursor skip_message : Option String)
    (hcur : t.cursor = none) (hne : eval_cursor ≠ some "") :
    (update_state t TickStatus.SKIPPED none skip_message eval_cursor none).status
        = TickStatus.SKIPPED
    ∧ (writeInstigatorUpdate sensor
          (update_state t TickStatus.SKIPPED none skip_message eval_cursor none) false
          state).instigator_data.bind (fun d => d.cursor) = eval_cursor := by
  have hstat : (update_state t TickStatus.SKIPPED none skip_message eval_cursor none).status
      = TickStatus.SKIPPED := update_state_status t _ _ _ _ _
  have hcursor : (update_state t TickStatus.SKIPPED none skip_message eval_cursor none).cursor
      = eval_cursor := by
    rw [update_state_cursor]
    cases heq : eval_cursor with
    | none => simp [strTruthy, hcur]
    | some c =>
        have hc : c ≠ "" := by
          intro hc
          exact hne (by rw [hc] at heq; exact heq)
        simp [strTruthy, hc]
  refine ⟨hstat, ?_⟩
  simp [writeInstigatorUpdate, hstat, hcursor]

/-- Witness for claim C9 (amended): a fresh STARTED tick skipped with
cursor "c2" commits "c2". -/
theorem skip_commits_cursor_witness :
    (update_state ⟨TickStatus.STARTED, 100, none, [], [], none, none, []⟩
        TickStatus.SKIPPED none none (some "c2") none).status = TickStatus.SKIPPED
    ∧ (writeInstigatorUpdate ⟨"s", "repo", some 30⟩
          (update_state ⟨TickStatus.STARTED, 100, none, [], [], none, none, []⟩
            TickStatus.SKIPPED none none (some "c2") none) false
          ⟨some ⟨some 40, none, some 30, some "abc", some 40⟩⟩).instigator_data.bind
        (fun d => d.cursor) = some "c2" :=
  skip_commits_cursor ⟨"s", "repo", some 30⟩
    ⟨TickStatus.STARTED, 100, none, [], [], none, none, []⟩
    ⟨some ⟨some 40, none, some 30, some "abc", some 40⟩⟩ (some "c2") none rfl
    (by simp)

/-- Counterexample to claim C9 as stated: the evaluation returns the
empty-string cursor, the prior persisted cursor is "abc"; the committed
cursor is null — neither the evaluation's cursor nor the prior one. -/
theorem skip_empty_cursor_counterexample :
    (writeInstigatorUpdate ⟨"s", "repo", some 30⟩
        (update_state ⟨TickStatus.STARTED, 100, none, [], [], none, none, []⟩
          TickStatus.SKIPPED none none (some "") none) false
        ⟨some ⟨some 40, none, some 30, some "abc", some 40⟩⟩).instigator_data.bind
      (fun d => d.cursor) = none
    ∧ (none : Option String) ≠ some ""
    ∧ (none : Option String) ≠ some "abc" := by
  refine ⟨by decide, by simp, by simp⟩

/-- Membership in the registry after an add request: the union of the
previous registry with the requested keys. -/
theorem mem_process_add (reg : PartitionRegistry) (d : String) (keys : List String)
    (p : String × String) :
    p ∈ (process_dynamic_partitions_request reg (DynamicPartitionsRequest.add d keys)).1
      ↔ (p ∈ reg ∨ (p.1 = d ∧ p.2 ∈ keys)) := by
  simp only [process_dynamic_partitions_request]
  by_cases hni : keys.filter (fun k => !has_dynamic_partition reg d k) = []
  · rw [if_neg (by simp [hni])]
    constructor
    · exact Or.inl
    · rintro (hp | ⟨h1, h2⟩)
      · exact hp
      · have := List.filter_eq_nil.1 hni p.2 h2
        simp only [Bool.not_eq_true', Bool.not_eq_false] at this
        simp only [has_dynamic_partition, decide_eq_true_eq] at this
        rwa [← h1, Prod.mk.eta] at this
  · rw [if_pos (by simp [hni])]
    simp only [add_dynamic_partitions, List.mem_append, List.mem_map, List.mem_filter,
      Bool.not_eq_true']
    constructor
    · rintro (hp | ⟨k, ⟨hk, -⟩, hkp⟩)
      · exact Or.inl hp
      · exact Or.inr ⟨by rw [← hkp], by rw [← hkp]; exact hk⟩
    · rintro (hp | ⟨h1, h2⟩)
      · exact Or.inl hp
      · by_cases hmem : has_dynamic_partition reg d p.2 = true
        · simp only [has_dynamic_partition, decide_eq_true_eq] at hmem
          rw [← h1, Prod.mk.eta] at hmem
          exact Or.inl hmem
        · refine Or.inr ⟨p.2, ⟨h2, by simpa using hmem⟩, ?_⟩
          rw [← h1, Prod.mk.eta]

/-- Membership after folding single-key deletions over a key list. -/
theorem mem_foldl_delete (ks : List String) (reg : PartitionRegistry) (d : String)
    (p : String × String) :
    p ∈ ks.foldl (fun r k => delete_dynamic_partition r d k) reg
      ↔ (p ∈ reg ∧ ∀ k ∈ ks, p ≠ (d, k)) := by
  induction ks generalizing reg with
  | nil => simp
  | cons k ks ih =>
      rw [List.foldl_cons, ih]
      simp only [delete_dynamic_partition, List.mem_filter, decide_eq_true_eq,
        List.mem_cons, forall_eq_or_imp]
      tauto

/-- Membership in the registry after a delete request: the previous
registry minus the requested keys. -/
theorem mem_process_delete (reg : PartitionRegistry) (d : String) (keys : List String)
    (p : String × String) :
    p ∈ (process_dynamic_partitions_request reg (DynamicPartitionsRequest.delete d keys)).1
      ↔ (p ∈ reg ∧ ¬(p.1 = d ∧ p.2 ∈ keys)) := by
  simp only [process_dynamic_partitions_request, mem_foldl_delete]
  constructor
  · rintro ⟨hp, hall⟩
    refine ⟨hp, ?_⟩
    rintro ⟨h1, h2⟩
    have hmem : has_dynamic_partition reg d p.2 = true := by
      simp only [has_dynamic_partition, decide_eq_true_eq]
      rwa [← h1, Prod.mk.eta]
    have : p.2 ∈ keys.filter (fun k => has_dynamic_partition reg d k) :=
      List.mem_filter.2 ⟨h2, hmem⟩
    exact hall p.2 this (by rw [← h1, Prod.mk.eta])
  · rintro ⟨hp, hno⟩
    refine ⟨hp, ?_⟩
    intro k hk hpk
    have := List.mem_filter.1 hk
    exact hno ⟨by rw [hpk], by rw [hpk]; exact this.1⟩

/-- Claim C8: an add request inserts exactly the requested keys not
already present and reports the already-present ones as skipped; a
delete request removes exactly the requested keys currently present and
reports the absent ones as skipped; re-applying the same request mutates
nothing and reports every key as skipped, never erroring. -/
theorem dynamic_partition_mutation (reg : PartitionRegistry) (d : String)
    (keys : List String) :
    (∀ p : String × String,
        p ∈ (process_dynamic_partitions_request reg
              (DynamicPartitionsRequest.add d keys)).1
          ↔ (p ∈ reg ∨ (p.1 = d ∧ p.2 ∈ keys)))
    ∧ (process_dynamic_partitions_request reg (DynamicPartitionsRequest.add d keys)).2
        = ⟨d, some (keys.filter fun k => !has_dynamic_partition reg d k), none,
            keys.filter fun k => has_dynamic_partition reg d k⟩
    ∧ process_dynamic_partitions_request
          (process_dynamic_partitions_request reg (DynamicPartitionsRequest.add d keys)).1
          (DynamicPartitionsRequest.add d keys)
        = ((process_dynamic_partitions_request reg
              (DynamicPartitionsRequest.add d keys)).1,
            ⟨d, some [], none, keys⟩)
    ∧ (∀ p : String × String,
        p ∈ (process_dynamic_partitions_request reg
              (DynamicPartitionsRequest.delete d keys)).1
          ↔ (p ∈ reg ∧ ¬(p.1 = d ∧ p.2 ∈ keys)))
    ∧ (process_dynamic_partitions_request reg (DynamicPartitionsRequest.delete d keys)).2
        = ⟨d, none, some (keys.filter fun k => has_dynamic_partition reg d k),
            keys.filter fun k => !has_dynamic_partition reg d k⟩
    ∧ process_dynamic_partitions_request
          (process_dynamic_partitions_request reg
            (DynamicPartitionsRequest.delete d keys)).1
          (DynamicPartitionsRequest.delete d keys)
        = ((process_dynamic_partitions_request reg
              (DynamicPartitionsRequest.delete d keys)).1,
            ⟨d, none, some [], keys⟩) := by
  refine ⟨mem_process_add reg d keys, rfl, ?_, mem_process_delete reg d keys, rfl, ?_⟩
  · have hall : ∀ k ∈ keys,
        has_dynamic_partition
          (process_dynamic_partitions_request reg
            (DynamicPartitionsRequest.add d keys)).1 d k = true := by
      intro k hk
      have := (mem_process_add reg d keys (d, k)).2 (Or.inr ⟨rfl, hk⟩)
      simpa [has_dynamic_partition] using this
    have h1 : keys.filter (fun k => !has_dynamic_partition
        (process_dynamic_partitions_request reg
          (DynamicPartitionsRequest.add d keys)).1 d k) = [] := by
      rw [List.filter_eq_nil]
      intro k hk
      simp [hall k hk]
    have h2 : keys.filter (fun k => has_dynamic_partition
        (process_dynamic_partitions_request reg
          (DynamicPartitionsRequest.add d keys)).1 d k) = keys := by
      rw [List.filter_eq_self]
      intro k hk
      exact hall k hk
    conv_lhs => rw [process_dynamic_partitions_request]
    rw [h1, h2]
    simp
  · have hnone : ∀ k ∈ keys,
        has_dynamic_partition
          (process_dynamic_partitions_request reg
            (DynamicPartitionsRequest.delete d keys)).1 d k = false := by
      intro k hk
      rw [← Bool.not_eq_true]
      intro hmem
      simp only [has_dynamic_partition, decide_eq_true_eq] at hmem
      have := (mem_process_delete reg d keys (d, k)).1 hmem
      exact this.2 ⟨rfl, hk⟩
    have h1 : keys.filter (fun k => has_dynamic_partition
        (process_dynamic_partitions_request reg
          (DynamicPartitionsRequest.delete d keys)).1 d k) = [] := by
      rw [List.filter_eq_nil]
      intro k hk
      simp [hnone k hk]
    have h2 : keys.filter (fun k => !has_dynamic_partition
        (process_dynamic_partitions_request reg
          (DynamicPartitionsRequest.delete d keys)).1 d k) = keys := by
      rw [List.filter_eq_self]
      intro k hk
      simp [hnone k hk]
    conv_lhs => rw [process_dynamic_partitions_request]
    rw [h1, h2]
    simp

/-- Looking up the key just set returns the value just set. -/
theorem alistGet_alistSet_self {β : Type} (m : List (String × β)) (k : String) (v : β) :
    alistGet (alistSet m k v) k = some v := by
  induction m with
  | nil => simp [alistSet, alistGet]
  | cons p rest ih =>
      by_cases h : p.1 = k
      · simp [alistSet, alistGet, h]
      · simp [alistSet, alistGet, h, ih]

/-- Setting one key does not change lookups of other keys. -/
theorem alistGet_alistSet_ne {β : Type} (m : List (String × β)) (k k' : String) (v : β)
    (h : k' ≠ k) :
    alistGet (alistSet m k v) k' = alistGet m k' := by
  induction m with
  | nil =>
      simp only [alistSet, alistGet]
      rw [if_neg (fun hh => h hh.symm)]
  | cons p rest ih =>
      by_cases hp : p.1 = k
      · subst hp
        simp only [alistSet, if_pos rfl, alistGet]
        rw [if_neg (fun hh => h hh.symm), if_neg (fun hh => h hh.symm)]
      · simp only [alistSet, if_neg hp, alistGet, ih]

/-- A successful association-list lookup exhibits a member entry. -/
theorem alistGet_mem {β : Type} (m : List (String × β)) (k : String) (v : β)
    (h : alistGet m k = some v) : (k, v) ∈ m := by
  induction m with
  | nil => cases h
  | cons p rest ih =>
      by_cases hp : p.1 = k
      · simp only [alistGet, if_pos hp] at h
        injection h with h
        rw [← hp, ← h]
        exact List.mem_cons_self p rest
      · simp only [alistGet, if_neg hp] at h
        exact List.mem_cons_of_mem _ (ih h)

/-- A successful lookup in the run map built by `_fetch_existing_runs`'s
fold exhibits a run of the folded list bearing that run-key tag (or an
entry already in the accumulator). -/
theorem alistGet_run_fold_some (l : List DagsterRun) (m0 : List (String × DagsterRun))
    (k : String) (r : DagsterRun)
    (h : alistGet
        (l.foldl (fun m run => alistSet m ((alistGet run.tags RUN_KEY_TAG).getD "") run) m0)
        k = some r) :
    (r ∈ l ∧ (alistGet r.tags RUN_KEY_TAG).getD "" = k) ∨ alistGet m0 k = some r := by
  induction l generalizing m0 with
  | nil => exact Or.inr h
  | cons a l ih =>
      rcases ih _ h with ⟨hmem, hk⟩ | hh
      · exact Or.inl ⟨List.mem_cons_of_mem _ hmem, hk⟩
      · have hh2 : alistGet (alistSet m0 ((alistGet a.tags RUN_KEY_TAG).getD "") a) k
            = some r := hh
        by_cases hak : (alistGet a.tags RUN_KEY_TAG).getD "" = k
        · rw [hak, alistGet_alistSet_self] at hh2
          injection hh2 with hh2
          exact Or.inl ⟨by rw [← hh2]; exact List.mem_cons_self _ _,
            by rw [← hh2]; exact hak⟩
        · rw [alistGet_alistSet_ne _ _ _ _ (fun hh3 => hak hh3.symm)] at hh2
          exact Or.inr hh2

/-- When no run of the folded list bears the key, the fold leaves that
key's lookup unchanged. -/
theorem alistGet_run_fold_none (l : List DagsterRun) (m0 : List (String × DagsterRun))
    (k : String) (h : ∀ r ∈ l, (alistGet r.tags RUN_KEY_TAG).getD "" ≠ k) :
    alistGet
        (l.foldl (fun m run => alistSet m ((alistGet run.tags RUN_KEY_TAG).getD "") run) m0)
        k = alistGet m0 k := by
  induction l generalizing m0 with
  | nil => rfl
  | cons a l ih =>
      rw [List.foldl_cons, ih _ (fun r hr => h r (List.mem_cons_of_mem _ hr))]
      exact alistGet_alistSet_ne _ _ _ _
        (fun hh => h a (List.mem_cons_self _ _) hh.symm)

/-- A run found by `_fetch_existing_runs` under key `k` is a store run
tagged with run key `k` that matches the sensor identity. -/
theorem fetch_existing_runs_some (instance_runs : List DagsterRun)
    (sensor : ExternalSensor) (run_requests : List RunRequest) (k : String)
    (r : DagsterRun)
    (h : alistGet (_fetch_existing_runs instance_runs sensor run_requests) k = some r) :
    r ∈ instance_runs ∧ alistGet r.tags RUN_KEY_TAG = some k
      ∧ sensor_identity_match sensor r = true := by
  simp only [_fetch_existing_runs] at h
  by_cases hkeys : collected_run_keys run_requests = []
  · rw [if_pos hkeys] at h
    cases h
  · rw [if_neg hkeys] at h
    rcases alistGet_run_fold_some _ _ _ _ h with ⟨hmem, hk⟩ | hh
    · have h2 := List.mem_filter.1 hmem
      have h3 := List.mem_filter.1 h2.1
      refine ⟨h3.1, ?_, h2.2⟩
      rcases htag : alistGet r.tags RUN_KEY_TAG with _ | k0
      · rw [htag] at h3
        simp at h3
      · rw [htag] at hk
        simp only [Option.getD_some] at hk
        rw [hk]
    · cases hh

/-- When no store run both bears run-key tag `k` and matches the sensor
identity, `_fetch_existing_runs` has no entry under `k`. -/
theorem fetch_existing_runs_none (instance_runs : List DagsterRun)
    (sensor : ExternalSensor) (run_requests : List RunRequest) (k : String)
    (h : ∀ r ∈ instance_runs, ¬(alistGet r.tags RUN_KEY_TAG = some k
        ∧ sensor_identity_match sensor r = true)) :
    alistGet (_fetch_existing_runs instance_runs sensor run_requests) k = none := by
  simp only [_fetch_existing_runs]
  by_cases hkeys : collected_run_keys run_requests = []
  · rw [if_pos hkeys]
    rfl
  · rw [if_neg hkeys]
    rw [alistGet_run_fold_none]
    · rfl
    · intro r hr hk
      have h2 := List.mem_filter.1 hr
      have h3 := List.mem_filter.1 h2.1
      rcases htag : alistGet r.tags RUN_KEY_TAG with _ | k0
      · rw [htag] at h3
        simp at h3
      · rw [htag] at hk
        simp only [Option.getD_some] at hk
        exact h r h3.1 ⟨by rw [htag, hk], h2.2⟩

/-- Claim C1: the per-request dedup decision over the run map fetched
for the batch.  A request with no run key always creates a new run; any
run the fetch associates to key `k` is a store run tagged `k` matching
the instigator identity (exact repository selector, or sensor-name-only
for runs with no recorded origin); a keyed request with no matching
store run creates a new run tagged with its key; a keyed request whose
match is NOT_STARTED reuses that very run; a keyed request whose match
is in any other status is skipped, creating nothing. -/
theorem run_dedup_decision (instance_runs : List DagsterRun) (sensor : ExternalSensor)
    (run_requests : List RunRequest) (fresh_run_id : String)
    (job_tags sensor_tags : List (String × String)) (job_origin_selector_id : String)
    (req : RunRequest) (k : String) (run : DagsterRun) :
    (req.run_key = none →
      _get_or_create_sensor_run fresh_run_id job_tags sensor_tags job_origin_selector_id
          req (_fetch_existing_runs instance_runs sensor run_requests)
        = Sum.inl (_create_sensor_run fresh_run_id job_tags sensor_tags
            job_origin_selector_id req))
    ∧ (∀ r, alistGet (_fetch_existing_runs instance_runs sensor run_requests) k = some r →
        r ∈ instance_runs ∧ alistGet r.tags RUN_KEY_TAG = some k
          ∧ sensor_identity_match sensor r = true)
    ∧ (req.run_key = some k → k ≠ "" →
      (∀ r ∈ instance_runs, ¬(alistGet r.tags RUN_KEY_TAG = some k
          ∧ sensor_identity_match sensor r = true)) →
      _get_or_create_sensor_run fresh_run_id job_tags sensor_tags job_origin_selector_id
          req (_fetch_existing_runs instance_runs sensor run_requests)
        = Sum.inl (_create_sensor_run fresh_run_id job_tags sensor_tags
            job_origin_selector_id req)
      ∧ alistGet (_create_sensor_run fresh_run_id job_tags sensor_tags
            job_origin_selector_id req).tags RUN_KEY_TAG = some k)
    ∧ (req.run_key = some k → k ≠ "" →
      alistGet (_fetch_existing_runs instance_runs sensor run_requests) k = some run →
      run.status = DagsterRunStatus.NOT_STARTED →
      _get_or_create_sensor_run fresh_run_id job_tags sensor_tags job_origin_selector_id
          req (_fetch_existing_runs instance_runs sensor run_requests) = Sum.inl run)
    ∧ (req.run_key = some k → k ≠ "" →
      alistGet (_fetch_existing_runs instance_runs sensor run_requests) k = some run →
      run.status ≠ DagsterRunStatus.NOT_STARTED →
      _get_or_create_sensor_run fresh_run_id job_tags sensor_tags job_origin_selector_id
          req (_fetch_existing_runs instance_runs sensor run_requests)
        = Sum.inr ⟨some k, run⟩) := by
  refine ⟨?_, fun r => fetch_existing_runs_some instance_runs sensor run_requests k r,
    ?_, ?_, ?_⟩
  · intro hkey
    simp [_get_or_create_sensor_run, strTruthy, hkey]
  · intro hkey hk hno
    have hnone := fetch_existing_runs_none instance_runs sensor run_requests k hno
    constructor
    · simp [_get_or_create_sensor_run, strTruthy, hkey, hk, hnone]
    · simp only [_create_sensor_run, strTruthy, hkey, Option.getD_some]
      rw [if_pos (by simp [hk])]
      exact alistGet_alistSet_self _ _ _
  · intro hkey hk hfound hstat
    simp [_get_or_create_sensor_run, strTruthy, hkey, hk, hfound, hstat]
  · intro hkey hk hfound hstat
    simp [_get_or_create_sensor_run, strTruthy, hkey, hk, hfound, hstat]

/-- Witness for claim C1: a store with a NOT_STARTED run under "k1" and
a SUCCESS run under "k2"; requests for "k1" (reused), "k2" (skipped),
"k3" (created, tagged) and for no key (created). -/
theorem run_dedup_decision_witness :
    _get_or_create_sensor_run "f" [] [] "repo" ⟨none, []⟩
        (_fetch_existing_runs
          [⟨"id1", DagsterRunStatus.NOT_STARTED,
              [("dagster/run_key", "k1"), ("dagster/sensor_name", "s")], some "repo"⟩,
            ⟨"id2", DagsterRunStatus.SUCCESS,
              [("dagster/run_key", "k2"), ("dagster/sensor_name", "s")], some "repo"⟩]
          ⟨"s", "repo", some 30⟩
          [⟨some "k1", []⟩, ⟨some "k2", []⟩, ⟨some "k3", []⟩, ⟨none, []⟩])
      = Sum.inl (_create_sensor_run "f" [] [] "repo" ⟨none, []⟩)
    ∧ _get_or_create_sensor_run "f" [] [] "repo" ⟨some "k3", []⟩
        (_fetch_existing_runs
          [⟨"id1", DagsterRunStatus.NOT_STARTED,
              [("dagster/run_key", "k1"), ("dagster/sensor_name", "s")], some "repo"⟩,
            ⟨"id2", DagsterRunStatus.SUCCESS,
              [("dagster/run_key", "k2"), ("dagster/sensor_name", "s")], some "repo"⟩]
          ⟨"s", "repo", some 30⟩
          [⟨some "k1", []⟩, ⟨some "k2", []⟩, ⟨some "k3", []⟩, ⟨none, []⟩])
      = Sum.inl (_create_sensor_run "f" [] [] "repo" ⟨some "k3", []⟩)
    ∧ _get_or_create_sensor_run "f" [] [] "repo" ⟨some "k1", []⟩
        (_fetch_existing_runs
          [⟨"id1", DagsterRunStatus.NOT_STARTED,
              [("dagster/run_key", "k1"), ("dagster/sensor_name", "s")], some "repo"⟩,
            ⟨"id2", DagsterRunStatus.SUCCESS,
              [("dagster/run_key", "k2"), ("dagster/sensor_name", "s")], some "repo"⟩]
          ⟨"s", "repo", some 30⟩
          [⟨some "k1", []⟩, ⟨some "k2", []⟩, ⟨some "k3", []⟩, ⟨none, []⟩])
      = Sum.inl ⟨"id1", DagsterRunStatus.NOT_STARTED,
          [("dagster/run_key", "k1"), ("dagster/sensor_name", "s")], some "repo"⟩
    ∧ _get_or_create_sensor_run "f" [] [] "repo" ⟨some "k2", []⟩
        (_fetch_existing_runs
          [⟨"id1", DagsterRunStatus.NOT_STARTED,
              [("dagster/run_key", "k1"), ("dagster/sensor_name", "s")], some "repo"⟩,
            ⟨"id2", DagsterRunStatus.SUCCESS,
              [("dagster/run_key", "k2"), ("dagster/sensor_name", "s")], some "repo"⟩]
          ⟨"s", "repo", some 30⟩
          [⟨some "k1", []⟩, ⟨some "k2", []⟩, ⟨some "k3", []⟩, ⟨none, []⟩])
      = Sum.inr ⟨some "k2", ⟨"id2", DagsterRunStatus.SUCCESS,
          [("dagster/run_key", "k2"), ("dagster/sensor_name", "s")], some "repo"⟩⟩ := by
  refine ⟨?_, ?_, ?_, ?_⟩
  · exact (run_dedup_decision
      [⟨"id1", DagsterRunStatus.NOT_STARTED,
          [("dagster/run_key", "k1"), ("dagster/sensor_name", "s")], some "repo"⟩,
        ⟨"id2", DagsterRunStatus.SUCCESS,
          [("dagster/run_key", "k2"), ("dagster/sensor_name", "s")], some "repo"⟩]
      ⟨"s", "repo", some 30⟩
      [⟨some "k1", []⟩, ⟨some "k2", []⟩, ⟨some "k3", []⟩, ⟨none, []⟩]
      "f" [] [] "repo" ⟨none, []⟩ ""
      ⟨"x", DagsterRunStatus.NOT_STARTED, [], none⟩).1 rfl
  · exact ((run_dedup_decision
      [⟨"id1", DagsterRunStatus.NOT_STARTED,
          [("dagster/run_key", "k1"), ("dagster/sensor_name", "s")], some "repo"⟩,
        ⟨"id2", DagsterRunStatus.SUCCESS,
          [("dagster/run_key", "k2"), ("dagster/sensor_name", "s")], some "repo"⟩]
      ⟨"s", "repo", some 30⟩
      [⟨some "k1", []⟩, ⟨some "k2", []⟩, ⟨some "k3", []⟩, ⟨none, []⟩]
      "f" [] [] "repo" ⟨some "k3", []⟩ "k3"
      ⟨"x", DagsterRunStatus.NOT_STARTED, [], none⟩).2.2.1 rfl (by decide)
      (by decide)).1
  · exact (run_dedup_decision
      [⟨"id1", DagsterRunStatus.NOT_STARTED,
          [("dagster/run_key", "k1"), ("dagster/sensor_name", "s")], some "repo"⟩,
        ⟨"id2", DagsterRunStatus.SUCCESS,
          [("dagster/run_key", "k2"), ("dagster/sensor_name", "s")], some "repo"⟩]
      ⟨"s", "repo", some 30⟩
      [⟨some "k1", []⟩, ⟨some "k2", []⟩, ⟨some "k3", []⟩, ⟨none, []⟩]
      "f" [] [] "repo" ⟨some "k1", []⟩ "k1"
      ⟨"id1", DagsterRunStatus.NOT_STARTED,
        [("dagster/run_key", "k1"), ("dagster/sensor_name", "s")], some "repo"⟩).2.2.2.1
      rfl (by decide) (by decide) rfl
  · exact (run_dedup_decision
      [⟨"id1", DagsterRunStatus.NOT_STARTED,
          [("dagster/run_key", "k1"), ("dagster/sensor_name", "s")], some "repo"⟩,
        ⟨"id2", DagsterRunStatus.SUCCESS,
          [("dagster/run_key", "k2"), ("dagster/sensor_name", "s")], some "repo"⟩]
      ⟨"s", "repo", some 30⟩
      [⟨some "k1", []⟩, ⟨some "k2", []⟩, ⟨some "k3", []⟩, ⟨none, []⟩]
      "f" [] [] "repo" ⟨some "k2", []⟩ "k2"
      ⟨"id2", DagsterRunStatus.SUCCESS,
        [("dagster/run_key", "k2"), ("dagster/sensor_name", "s")], some "repo"⟩).2.2.2.2
      rfl (by decide) (by decide) (by decide)

/-- Lookup misses when no entry bears the key. -/
theorem alistGet_none_of_all_ne {β : Type} (m : List (String × β)) (k : String)
    (h : ∀ p ∈ m, p.1 ≠ k) : alistGet m k = none := by
  induction m with
  | nil => rfl
  | cons p rest ih =>
      simp only [alistGet]
      rw [if_neg (h p (List.mem_cons_self _ _))]
      exact ih (fun q hq => h q (List.mem_cons_of_mem _ hq))

/-- Merging a dict none of whose keys is `k` does not change `k`'s lookup. -/
theorem alistGet_dictMerge_frame (a b : List (String × String)) (k : String)
    (h : ∀ p ∈ b, p.1 ≠ k) : alistGet (dictMerge a b) k = alistGet a k := by
  induction b generalizing a with
  | nil => rfl
  | cons p b ih =>
      have hstep : dictMerge a (p :: b) = dictMerge (alistSet a p.1 p.2) b := by
        simp [dictMerge]
      rw [hstep, ih (alistSet a p.1 p.2) (fun q hq => h q (List.mem_cons_of_mem _ hq))]
      exact alistGet_alistSet_ne _ _ _ _
        (fun hh => h p (List.mem_cons_self _ _) hh.symm)

/-- Claim C10: a run request whose run key is the empty string behaves
exactly like a keyless request: it contributes nothing to the
existing-run lookup of its batch, it always creates a fresh run whatever
the existing-run map holds, and the created run carries no run-key tag
(given none of the merged tag sources smuggles one in). -/
theorem empty_run_key_no_dedup (instance_runs : List DagsterRun)
    (sensor : ExternalSensor) (run_requests : List RunRequest) (fresh_run_id : String)
    (job_tags sensor_tags : List (String × String)) (job_origin_selector_id : String)
    (req : RunRequest) (hkey : req.run_key = some "") :
    _fetch_existing_runs instance_runs sensor (req :: run_requests)
        = _fetch_existing_runs instance_runs sensor run_requests
    ∧ (∀ existing_runs_by_key,
        _get_or_create_sensor_run fresh_run_id job_tags sensor_tags
            job_origin_selector_id req existing_runs_by_key
          = Sum.inl (_create_sensor_run fresh_run_id job_tags sensor_tags
              job_origin_selector_id req))
    ∧ ((∀ p ∈ job_tags, p.1 ≠ RUN_KEY_TAG) → (∀ p ∈ req.tags, p.1 ≠ RUN_KEY_TAG) →
        (∀ p ∈ sensor_tags, p.1 ≠ RUN_KEY_TAG) →
        alistGet (_create_sensor_run fresh_run_id job_tags sensor_tags
            job_origin_selector_id req).tags RUN_KEY_TAG = none) := by
  have hcoll : collected_run_keys (req :: run_requests)
      = collected_run_keys run_requests := by
    simp [collected_run_keys, List.filterMap_cons, strTruthy, hkey]
  refine ⟨?_, ?_, ?_⟩
  · simp only [_fetch_existing_runs, hcoll]
  · intro existing_runs_by_key
    simp [_get_or_create_sensor_run, strTruthy, hkey]
  · intro hj hr hs
    simp only [_create_sensor_run, strTruthy, hkey]
    rw [if_neg (by simp)]
    rw [alistGet_dictMerge_frame _ _ _ hs, alistGet_dictMerge_frame _ _ _ hr]
    exact alistGet_none_of_all_ne _ _ hj

/-- Witness for claim C10: an empty-string-keyed request alongside a
"k1" request, against a store holding a "k1"-tagged run. -/
theorem empty_run_key_no_dedup_witness :
    _fetch_existing_runs
        [⟨"id1", DagsterRunStatus.NOT_STARTED,
            [("dagster/run_key", "k1"), ("dagster/sensor_name", "s")], some "repo"⟩]
        ⟨"s", "repo", some 30⟩ (⟨some "", []⟩ :: [⟨some "k1", []⟩])
      = _fetch_existing_runs
        [⟨"id1", DagsterRunStatus.NOT_STARTED,
            [("dagster/run_key", "k1"), ("dagster/sensor_name", "s")], some "repo"⟩]
        ⟨"s", "repo", some 30⟩ [⟨some "k1", []⟩]
    ∧ _get_or_create_sensor_run "f" [] [] "repo" ⟨some "", []⟩
        [("", ⟨"e", DagsterRunStatus.SUCCESS, [], none⟩)]
      = Sum.inl (_create_sensor_run "f" [] [] "repo" ⟨some "", []⟩)
    ∧ alistGet (_create_sensor_run "f" [] [] "repo" ⟨some "", []⟩).tags
        RUN_KEY_TAG = none := by
  have h := empty_run_key_no_dedup
    [⟨"id1", DagsterRunStatus.NOT_STARTED,
        [("dagster/run_key", "k1"), ("dagster/sensor_name", "s")], some "repo"⟩]
    ⟨"s", "repo", some 30⟩ [⟨some "k1", []⟩] "f" [] [] "repo" ⟨some "", []⟩ rfl
  exact ⟨h.1, h.2.1 _, h.2.2 (by simp) (by simp) (by simp)⟩

/-- The run ids recorded on the tick by the result loop: the previous
ids followed by the (truthy) id of every non-skipped result, in order. -/
theorem record_run_ids (results : List SubmitRunRequestResult) (t : TickData) :
    (record_run_request_results results t).run_ids
      = t.run_ids ++ results.filterMap (fun r =>
          match r.run with
          | Sum.inl run => if run.run_id = "" then none else some run.run_id
          | Sum.inr _ => none) := by
  induction results generalizing t with
  | nil => simp [record_run_request_results]
  | cons r rs ih =>
      cases hrun : r.run with
      | inl run =>
          have hstep : record_run_request_results (r :: rs) t
              = record_run_request_results rs
                  (t.with_run_info (some run.run_id) r.run_key) := by
            simp [record_run_request_results, hrun]
          rw [hstep, ih]
          by_cases hid : run.run_id = ""
          · simp [TickData.with_run_info, strTruthy, hid, List.filterMap_cons, hrun]
          · simp [TickData.with_run_info, strTruthy, hid, List.filterMap_cons, hrun]
      | inr sk =>
          have hstep : record_run_request_results (r :: rs) t
              = record_run_request_results rs (t.with_run_info none r.run_key) := by
            simp [record_run_request_results, hrun]
          rw [hstep, ih]
          simp [TickData.with_run_info, strTruthy, List.filterMap_cons, hrun]

/-- A run returned (as opposed to skipped) by the dedup decision is
either the freshly created run or a run from the existing-run map. -/
theorem get_or_create_inl_run_id (fresh_run_id : String)
    (job_tags sensor_tags : List (String × String)) (job_origin_selector_id : String)
    (req : RunRequest) (existing_runs_by_key : List (String × DagsterRun))
    (run : DagsterRun)
    (h : _get_or_create_sensor_run fresh_run_id job_tags sensor_tags
        job_origin_selector_id req existing_runs_by_key = Sum.inl run) :
    run.run_id = fresh_run_id ∨ ∃ k, (k, run) ∈ existing_runs_by_key := by
  by_cases hkey : strTruthy req.run_key = true
  · rw [_get_or_create_sensor_run, if_neg (by simp [hkey])] at h
    rcases hlk : alistGet existing_runs_by_key (req.run_key.getD "") with _ | r0
    · rw [hlk] at h
      injection h with h
      rw [← h]
      exact Or.inl rfl
    · rw [hlk] at h
      have h2 : (if r0.status ≠ DagsterRunStatus.NOT_STARTED then
            (Sum.inr ⟨req.run_key, r0⟩ : DagsterRun ⊕ SkippedSensorRun)
          else Sum.inl r0) = Sum.inl run := h
      by_cases hst : r0.status ≠ DagsterRunStatus.NOT_STARTED
      · rw [if_pos hst] at h2
        cases h2
      · rw [if_neg hst] at h2
        injection h2 with h2
        exact Or.inr ⟨req.run_key.getD "", by rw [← h2]; exact alistGet_mem _ _ _ hlk⟩
  · rw [_get_or_create_sensor_run, if_pos (by simp [hkey])] at h
    injection h with h
    rw [← h]
    exact Or.inl rfl

/-- Claim C6: every request of a batch yields exactly one outcome; a
submission failure is attached to that outcome's `error_info` only (a
skipped request never carries one); and the finished tick is SUCCESS
exactly when at least one request resulted in a created (non-skipped)
run — regardless of how many submissions failed. -/
theorem submission_failures_isolated (job_tags sensor_tags : List (String × String))
    (job_origin_selector_id : String) (existing_runs_by_key : List (String × DagsterRun))
    (entries : List (RunRequest × String × Option String)) (t : TickData)
    (eval_cursor : Option String)
    (hids : t.run_ids = [])
    (hfresh : ∀ e ∈ entries, e.2.1 ≠ "")
    (hstore : ∀ p ∈ existing_runs_by_key, p.2.run_id ≠ "") :
    (entries.map (_submit_run_request job_tags sensor_tags job_origin_selector_id
        existing_runs_by_key)).length = entries.length
    ∧ (∀ e ∈ entries,
        (_submit_run_request job_tags sensor_tags job_origin_selector_id
            existing_runs_by_key e).error_info
          = match _get_or_create_sensor_run e.2.1 job_tags sensor_tags
              job_origin_selector_id e.1 existing_runs_by_key with
            | Sum.inl _ => e.2.2
            | Sum.inr _ => none)
    ∧ (submit_phase job_tags sensor_tags job_origin_selector_id existing_runs_by_key
          entries t eval_cursor).status
        = (if entries.any (fun e => !(_submit_run_request job_tags sensor_tags
              job_origin_selector_id existing_runs_by_key e).is_skipped)
            then TickStatus.SUCCESS else TickStatus.SKIPPED) := by
  refine ⟨List.length_map _ _, ?_, ?_⟩
  · intro e he
    rcases hg : _get_or_create_sensor_run e.2.1 job_tags sensor_tags
        job_origin_selector_id e.1 existing_runs_by_key with run | sk <;>
      simp [_submit_run_request, hg]
  · have hpt : ∀ e ∈ entries,
        ((match (_submit_run_request job_tags sensor_tags job_origin_selector_id
              existing_runs_by_key e).run with
          | Sum.inl run => if run.run_id = "" then none else some run.run_id
          | Sum.inr _ => (none : Option String)) = none
          ↔ (_submit_run_request job_tags sensor_tags job_origin_selector_id
                existing_runs_by_key e).is_skipped = true) := by
      intro e he
      rcases hg : _get_or_create_sensor_run e.2.1 job_tags sensor_tags
          job_origin_selector_id e.1 existing_runs_by_key with run | sk
      · have hid : run.run_id ≠ "" := by
          rcases get_or_create_inl_run_id _ _ _ _ _ _ _ hg with hf | ⟨k, hk⟩
          · rw [hf]
            exact hfresh e he
          · exact hstore (k, run) hk
        simp [_submit_run_request, hg, SubmitRunRequestResult.is_skipped, hid]
      · simp [_submit_run_request, hg, SubmitRunRequestResult.is_skipped]
    have hiff : ((record_run_request_results
          (entries.map (_submit_run_request job_tags sensor_tags job_origin_selector_id
            existing_runs_by_key)) t).run_ids.length ≠ 0)
        ↔ entries.any (fun e => !(_submit_run_request job_tags sensor_tags
            job_origin_selector_id existing_runs_by_key e).is_skipped) = true := by
      rw [record_run_ids, hids, List.nil_append, Ne, List.length_eq_zero,
        List.filterMap_map, List.any_eq_true]
      rw [List.filterMap_eq_nil]
      constructor
      · intro hne
        by_contra hno
        push_neg at hno
        apply hne
        intro e he
        have h1 := hpt e he
        have h2 := hno e he
        simp only [Bool.not_eq_true', Bool.not_eq_true] at h2
        exact h1.2 (by simpa [SubmitRunRequestResult.is_skipped] using h2)
      · rintro ⟨e, he, hne⟩ hall
        have h1 := (hpt e he).1 (hall e he)
        simp only [Bool.not_eq_true'] at hne
        rw [h1] at hne
        cases hne
    by_cases hany : entries.any (fun e => !(_submit_run_request job_tags sensor_tags
        job_origin_selector_id existing_runs_by_key e).is_skipped) = true
    · rw [if_pos hany]
      show (submit_phase job_tags sensor_tags job_origin_selector_id existing_runs_by_key
          entries t eval_cursor).status = TickStatus.SUCCESS
      simp only [submit_phase]
      rw [if_pos (hiff.2 hany)]
      exact update_state_status _ _ _ _ _ _
    · rw [if_neg hany]
      show (submit_phase job_tags sensor_tags job_origin_selector_id existing_runs_by_key
          entries t eval_cursor).status = TickStatus.SKIPPED
      simp only [submit_phase]
      rw [if_neg (fun hh => hany (hiff.1 hh))]
      exact update_state_status _ _ _ _ _ _

/-- Witness for claim C6: two requests — "k1" creates a run whose
submission fails, "k2" dedups against an existing SUCCESS run — still
finish the tick in SUCCESS. -/
theorem submission_failures_isolated_witness :
    (submit_phase [] [] "repo"
        [("k2", ⟨"old2", DagsterRunStatus.SUCCESS,
            [("dagster/run_key", "k2"), ("dagster/sensor_name", "s")], some "repo"⟩)]
        [(⟨some "k1", []⟩, "fresh1", some "submit boom"),
          (⟨some "k2", []⟩, "fresh2", none)]
        ⟨TickStatus.STARTED, 100, none, [], [], none, none, []⟩
        (some "c")).status = TickStatus.SUCCESS := by
  have h := (submission_failures_isolated [] [] "repo"
    [("k2", ⟨"old2", DagsterRunStatus.SUCCESS,
        [("dagster/run_key", "k2"), ("dagster/sensor_name", "s")], some "repo"⟩)]
    [(⟨some "k1", []⟩, "fresh1", some "submit boom"),
      (⟨some "k2", []⟩, "fresh2", none)]
    ⟨TickStatus.STARTED, 100, none, [], [], none, none, []⟩
    (some "c") rfl (by decide) (by decide)).2.2
  rw [h]
  decide

end SensorDaemon
